import Mathlib

/-!
Verification development for the veros / pyOM ocean-model core.

Part 1 embeds the per-timestep orchestration of `PyOM.run`
(src/climate/pyom/pyom.py): the sequence of stage calls inside the main
loop, the three-level time-index rotation, the try/except failure path
with its panic snapshot, and the setup-time configuration check.

Part 2 embeds the pieces of `GlobalOneDegree`
(src/climate/setup/global_1deg/global_one_degree.py) needed for the
initial-condition masking, the idemix tidal-forcing branch and the
topography bottom-index map.

Part 3 embeds the two veros diagnostics
(src/veros/diagnostics/tracer_monitor.py, overturning.py).
-/

namespace Veros

/-! ### Configuration flags (PyOM.set_default_settings, pyom.py)

Only the switches consulted by the main loop, the setup check and the
boundary-exchange block are carried. -/

structure Config where
  enable_idemix : Bool
  enable_idemix_M2 : Bool
  enable_idemix_niw : Bool
  enable_eke : Bool
  enable_tke : Bool
  enable_cyclic_x : Bool
  enable_hydrostatic : Bool
  enable_implicit_vert_friction : Bool
deriving DecidableEq

/-- Prognostic fields named in the main loop's boundary-exchange block and
by the solver stages. -/
inductive PField
  | u | v | tke | eke | E_iw | E_M2 | E_niw | temp | salt | rho | w | psi
deriving DecidableEq

/-- One observable action of the loop body of `PyOM.run` (pyom.py lines
589-662): a call into a solver / closure / diagnostic module, a cyclic
boundary exchange of one field at one time slot, or the final time-level
index rotation. -/
inductive Event
  | setForcing
  | setIdemixParameter
  | setSpectralParameter
  | setEkeDiffusivities
  | setTkeDiffusivities
  | momentumStep
  | thermodynamicsStep
  | calcVelocityOnWgrid
  | integrateEke
  | integrateIdemixM2
  | integrateIdemixNiw
  | integrateIdemix
  | waveInteraction
  | integrateTke
  | setcyclicX (f : PField) (slot : ℕ)
  | verticalVelocity
  | diagnose
  | rotateTimeLevels
deriving DecidableEq

/-- Every call site inside the `try:` block of the main loop of
`PyOM.run` in the order it appears in pyom.py (lines 592-655), ending
with `diagnostics.diagnose`.  `t` is the value of `self.taup1` passed to
the `setcyclic_x` calls. -/
def masterBody (t : ℕ) : List Event :=
  [Event.setForcing,
   Event.setIdemixParameter,
   Event.setSpectralParameter,
   Event.setEkeDiffusivities,
   Event.setTkeDiffusivities,
   Event.momentumStep,
   Event.thermodynamicsStep,
   Event.calcVelocityOnWgrid,
   Event.integrateEke,
   Event.integrateIdemixM2,
   Event.integrateIdemixNiw,
   Event.integrateIdemix,
   Event.waveInteraction,
   Event.integrateTke,
   Event.setcyclicX PField.u t,
   Event.setcyclicX PField.v t,
   Event.setcyclicX PField.tke t,
   Event.setcyclicX PField.eke t,
   Event.setcyclicX PField.E_iw t,
   Event.setcyclicX PField.E_M2 t,
   Event.setcyclicX PField.E_niw t,
   Event.verticalVelocity,
   Event.diagnose]

/-- Guard of each call site: the conjunction of the `if` conditions that
enclose the call in pyom.py lines 592-655.  Unguarded calls map to
`true`; `setcyclic_x` is never called on any field other than u, v and
the closure energies, so all other exchange events map to `false`. -/
def enabledIn (c : Config) : Event → Bool
  | .setForcing => true
  | .setIdemixParameter => c.enable_idemix
  | .setSpectralParameter => c.enable_idemix_M2 || c.enable_idemix_niw
  | .setEkeDiffusivities => true
  | .setTkeDiffusivities => true
  | .momentumStep => true
  | .thermodynamicsStep => true
  | .calcVelocityOnWgrid => c.enable_eke || c.enable_tke || c.enable_idemix
  | .integrateEke => c.enable_eke
  | .integrateIdemixM2 => c.enable_idemix_M2
  | .integrateIdemixNiw => c.enable_idemix_niw
  | .integrateIdemix => c.enable_idemix
  | .waveInteraction => c.enable_idemix_M2 || c.enable_idemix_niw
  | .integrateTke => c.enable_tke
  | .setcyclicX .u _ => c.enable_cyclic_x
  | .setcyclicX .v _ => c.enable_cyclic_x
  | .setcyclicX .tke _ => c.enable_cyclic_x && c.enable_tke
  | .setcyclicX .eke _ => c.enable_cyclic_x && c.enable_eke
  | .setcyclicX .E_iw _ => c.enable_cyclic_x && c.enable_idemix
  | .setcyclicX .E_M2 _ => c.enable_cyclic_x && c.enable_idemix_M2
  | .setcyclicX .E_niw _ => c.enable_cyclic_x && c.enable_idemix_niw
  | .setcyclicX _ _ => false
  | .verticalVelocity => c.enable_hydrostatic
  | .diagnose => true
  | .rotateTimeLevels => true

/-- The fallible part of one iteration of the main loop (everything inside
the `try:` block up to and including `diagnostics.diagnose`): the call
sites of pyom.py lines 592-655 with their guards evaluated under `c`. -/
def bodyTrace (c : Config) (taup1 : ℕ) : List Event :=
  (masterBody taup1).filter (enabledIn c)

/-- The full loop-body trace: the fallible stage calls followed by the
time-level index rotation (pyom.py lines 657-661). -/
def stepTrace (c : Config) (taup1 : ℕ) : List Event :=
  bodyTrace c taup1 ++ [Event.rotateTimeLevels]

/-- Master sequence including the closing rotation. -/
def masterList (t : ℕ) : List Event :=
  masterBody t ++ [Event.rotateTimeLevels]

/-- Position of each exchanged field inside the boundary-exchange block. -/
def fieldNum : PField → ℕ
  | .u => 0 | .v => 1 | .tke => 2 | .eke => 3 | .E_iw => 4 | .E_M2 => 5 | .E_niw => 6
  | .temp => 7 | .salt => 8 | .rho => 9 | .w => 10 | .psi => 11

/-- Source position of each stage in the loop body: stage `a` appears
before stage `b` in the code exactly when `stageNum a < stageNum b`. -/
def stageNum : Event → ℕ
  | .setForcing => 0
  | .setIdemixParameter => 1
  | .setSpectralParameter => 2
  | .setEkeDiffusivities => 3
  | .setTkeDiffusivities => 4
  | .momentumStep => 5
  | .thermodynamicsStep => 6
  | .calcVelocityOnWgrid => 7
  | .integrateEke => 8
  | .integrateIdemixM2 => 9
  | .integrateIdemixNiw => 10
  | .integrateIdemix => 11
  | .waveInteraction => 12
  | .integrateTke => 13
  | .setcyclicX f _ => 14 + fieldNum f
  | .verticalVelocity => 26
  | .diagnose => 27
  | .rotateTimeLevels => 28

/-- Retarget the slot argument of exchange events; all other events are
unchanged. -/
def mapSlot (t : ℕ) : Event → Event
  | .setcyclicX f _ => .setcyclicX f t
  | e => e

/-! ### Three-level time-index rotation (pyom.py lines 52-54 and 657-661) -/

/-- The rotating triple of time-slot indices `taum1` (past), `tau`
(current), `taup1` (next). -/
structure TauTriple where
  taum1 : ℕ
  tau : ℕ
  taup1 : ℕ
deriving DecidableEq

/-- Initial values from `PyOM.set_default_settings`:
`taum1 = 0`, `tau = 1`, `taup1 = 2`. -/
def initialTau : TauTriple := ⟨0, 1, 2⟩

/-- End-of-step rotation, pyom.py lines 657-661:
`otaum1 = taum1; taum1 = tau; tau = taup1; taup1 = otaum1`.
Only the three small indices are permuted; no slot data is touched. -/
def rotateTau (s : TauTriple) : TauTriple :=
  ⟨s.tau, s.taup1, s.taum1⟩

/-- Index triple after `n` completed steps of the default-initialised
model. -/
def tauAfter : ℕ → TauTriple
  | 0 => initialTau
  | n + 1 => rotateTau (tauAfter n)

/-- A slot store together with the rotating index triple: the backing
arrays of a prognostic field (`temp`, `u`, ... have a trailing axis of
length 3 in `PyOM.allocate`) addressed through `taum1`/`tau`/`taup1`. -/
structure TimeState (V : Type) where
  slots : ℕ → V
  taus : TauTriple

/-- One completed step as it affects a three-slot prognostic field: the
step writes the `taup1` slot (the solver stages), then the indices are
rotated.  The write is the only slot mutation; the rotation copies no
slot. -/
def advanceStep {V : Type} (w : V) (s : TimeState V) : TimeState V :=
  { slots := Function.update s.slots s.taus.taup1 w
    taus := rotateTau s.taus }

/-- State of one prognostic field after `n` steps, starting from slot
contents `slots0` and the default index triple; `writes k` is the value
the solvers produce for the `next` slot during step `k`. -/
def runSteps {V : Type} (writes : ℕ → V) (slots0 : ℕ → V) : ℕ → TimeState V
  | 0 => ⟨slots0, initialTau⟩
  | n + 1 => advanceStep (writes n) (runSteps writes slots0 n)

/-! ### The main loop of `PyOM.run` with its failure path
(pyom.py lines 589-666)

Each iteration runs the loop body; any exception raised by a stage call
aborts the body at that call, `diagnostics.panic_snap` runs in the
`except:` handler, and the bare `raise` re-raises the same exception out
of `run`.  On success the indices are rotated and `itt` is incremented. -/

/-- Python exceptions that the embedding distinguishes. -/
inductive PyErr
  | runtimeError
  | nameError
  | attributeError
  | stageFailure (n : ℕ)
deriving DecidableEq

/-- Mutable orchestrator state threaded through the loop. -/
structure RunState where
  itt : ℕ
  enditt : ℕ
  taus : TauTriple
  panics : ℕ
  stepsDone : ℕ
deriving DecidableEq

/-- First exception raised while executing a list of stage calls in
order, if any (`g e` is the exception the call `e` raises, `none` when it
returns normally). -/
def firstFailure (g : Event → Option PyErr) : List Event → Option PyErr
  | [] => none
  | e :: rest =>
    match g e with
    | some err => some err
    | none => firstFailure g rest

/-- Successful completion of one iteration: time-level rotation and
`self.itt += 1` (pyom.py lines 657-662). -/
def stepOk (s : RunState) : RunState :=
  { s with taus := rotateTau s.taus, itt := s.itt + 1, stepsDone := s.stepsDone + 1 }

/-- One iteration of the `while` loop: run the body's stage calls in
order; if one raises, `diagnostics.panic_snap` is emitted and the same
exception propagates (the rotation and the `itt` increment are skipped);
otherwise rotate and count the step. -/
def stepResult (g : ℕ → Event → Option PyErr) (c : Config) (s : RunState) :
    RunState × Option PyErr :=
  match firstFailure (g s.itt) (bodyTrace c s.taus.taup1) with
  | some err => ({ s with panics := s.panics + 1 }, some err)
  | none => (stepOk s, none)

/-- The `while self.itt < self.enditt` loop; `fuel` bounds the number of
iterations (it is instantiated with `enditt - itt`, which matches the
loop because each successful iteration increments `itt` by one).  A
raised exception terminates the loop immediately: there is no retry. -/
def runLoopAux (g : ℕ → Event → Option PyErr) (c : Config) :
    ℕ → RunState → RunState × Option PyErr
  | 0, s => (s, none)
  | fuel + 1, s =>
    if s.itt < s.enditt then
      match stepResult g c s with
      | (s', none) => runLoopAux g c fuel s'
      | (s', some err) => (s', some err)
    else (s, none)

def runLoop (g : ℕ → Event → Option PyErr) (c : Config) (s : RunState) :
    RunState × Option PyErr :=
  runLoopAux g c (s.enditt - s.itt) s

/-- The configuration check at the end of `PyOM.setup` (pyom.py lines
740-742): TKE without implicit vertical friction raises `RuntimeError`. -/
def setupCheck (c : Config) : Option PyErr :=
  if c.enable_tke && !c.enable_implicit_vert_friction then
    some PyErr.runtimeError
  else
    none

/-- `PyOM.setup`: the stages before the final check (allocation, grid,
topography, initial conditions, module initialisation) are summarised by
`pre`, the exception the first failing one of them raises (if any); the
check itself runs last, as in the source. -/
def pyomSetup (c : Config) (pre : Option PyErr) : Option PyErr :=
  match pre with
  | some err => some err
  | none => setupCheck c

/-- `PyOM.run`: setup runs inside the `setup` timer before the main loop
is entered; an exception from setup propagates before any iteration
executes. -/
def pyomRun (g : ℕ → Event → Option PyErr) (c : Config) (pre : Option PyErr)
    (s : RunState) : RunState × Option PyErr :=
  match pyomSetup c pre with
  | some err => (s, some err)
  | none => runLoop g c s

/-- Modelled from the spec: which prognostic fields each stage writes at
the `next` (taup1) slot.  The solver and closure modules themselves are
not part of the four source files; the spec (section 4.1) states that the
Momentum Solver produces next velocity (and the streamfunction via the
Elliptic Solver), the Tracer Solver produces next
temperature/salinity/density, each closure integrates its own energy
field, and the vertical-velocity diagnosis fills `w` at taup1 (pyom.py
line 647). -/
def stageWrites : Event → List PField
  | .momentumStep => [.u, .v, .psi]
  | .thermodynamicsStep => [.temp, .salt, .rho]
  | .integrateEke => [.eke]
  | .integrateIdemixM2 => [.E_M2]
  | .integrateIdemixNiw => [.E_niw]
  | .integrateIdemix => [.E_iw]
  | .integrateTke => [.tke]
  | .verticalVelocity => [.w]
  | _ => []

/-- Prognostic fields written at the `next` slot during one step. -/
def writtenFields (c : Config) (t : ℕ) : List PField :=
  ((stepTrace c t).map stageWrites).flatten

/-- Flag settings of the shipped `GlobalOneDegree` setup
(global_one_degree.py, MAIN/TKE/EKE/IDEMIX option blocks):
idemix, eke, tke, cyclic-x, hydrostatic and implicit vertical friction
on; the idemix 2.0 spectral components off. -/
def oneDegConfig : Config :=
  { enable_idemix := true
    enable_idemix_M2 := false
    enable_idemix_niw := false
    enable_eke := true
    enable_tke := true
    enable_cyclic_x := true
    enable_hydrostatic := true
    enable_implicit_vert_friction := true }

/-- Orchestrator state after `k` successful iterations from `s`. -/
def okAdvance (k : ℕ) (s : RunState) : RunState :=
  { itt := s.itt + k
    enditt := s.enditt
    taus := rotateTau^[k] s.taus
    panics := s.panics
    stepsDone := s.stepsDone + k }

/-! ## Part 2: GlobalOneDegree setup
(src/climate/setup/global_1deg/global_one_degree.py)

Arrays are embedded as total functions on ℕ indices; a slice
`arr[2:-2, 2:-2]` of an `(nx+4, ny+4)`-shaped array touches exactly the
indices with `2 ≤ i < nx+2`, `2 ≤ j < ny+2`. -/

/-- Index pair hit by a `[2:-2, 2:-2]` slice. -/
def interiorXY (nx ny i j : ℕ) : Prop :=
  2 ≤ i ∧ i < nx + 2 ∧ 2 ≤ j ∧ j < ny + 2

instance (nx ny i j : ℕ) : Decidable (interiorXY nx ny i j) :=
  inferInstanceAs (Decidable (_ ∧ _ ∧ _ ∧ _))

/-- Contents of a freshly allocated prognostic array
(`np.zeros((nx+4, ny+4, nz, 3))` in `PyOM.allocate`). -/
def allocatedTracer : ℕ → ℕ → ℕ → ℕ → ℚ := fun _ _ _ _ => 0

/-- The initial-condition assignment of `GlobalOneDegree.set_initial_conditions`
(lines 177-183) for one tracer:
`arr[2:-2, 2:-2, :, 0] = data[..., ::-1] * maskT[2:-2, 2:-2, :]` and the
same for slot 1.  `data` has shape `(nx, ny, nz)`; the `[..., ::-1]`
reverses the vertical axis. -/
def setInitialTracer (nx ny nz : ℕ) (data maskT : ℕ → ℕ → ℕ → ℚ)
    (arr : ℕ → ℕ → ℕ → ℕ → ℚ) : ℕ → ℕ → ℕ → ℕ → ℚ :=
  fun i j k s =>
    if (s = 0 ∨ s = 1) ∧ interiorXY nx ny i j ∧ k < nz then
      data (i - 2) (j - 2) (nz - 1 - k) * maskT i j k
    else
      arr i j k s

/-- Reading a Python local that may not be bound on the current control
path: an unbound read raises `NameError`. -/
def readLocal {α : Type} : Option α → Except PyErr α
  | some v => Except.ok v
  | none => Except.error PyErr.nameError

/-- Slice-assignment through an instance attribute that may not have been
allocated: `m.attr[...] = v` raises `AttributeError` when `allocate`
never created the array (pyom.py allocates `forc_iw_bottom` and `forc_M2`
only under their enable flags). -/
def writeAttr {α : Type} : Option α → (α → α) → Except PyErr (Option α)
  | some a, f => Except.ok (some (f a))
  | none, _ => Except.error PyErr.attributeError

/-- The tidal-energy scaling of global_one_degree.py lines 221-224:
`tidal_energy_data[:, :] *= maskW[mask_x, mask_y, mask_z] / rho_0` with
`mask_z = max(0, kbot[2:-2, 2:-2] - 1)`; indices here are data
coordinates (`i < nx`, `j < ny`), the grid arrays are read at the
offset position. -/
def scaledTidal (rawTidal : ℕ → ℕ → ℚ) (maskW : ℕ → ℕ → ℕ → ℚ)
    (kbot : ℕ → ℕ → ℤ) (rho0 : ℚ) : ℕ → ℕ → ℚ :=
  fun i j =>
    rawTidal i j * maskW (i + 2) (j + 2) (Int.toNat (max 0 (kbot (i + 2) (j + 2) - 1))) / rho0

/-- The two idemix forcing arrays touched by the tidal-energy section;
each is `none` when `PyOM.allocate` did not create it (they are allocated
only when `enable_idemix` resp. `enable_idemix_M2` is set). -/
structure TidalState where
  forc_iw_bottom : Option (ℕ → ℕ → ℚ)
  forc_M2 : Option (ℕ → ℕ → ℕ → ℚ)

/-- Lines 218-231 of `GlobalOneDegree.set_initial_conditions`, with
Python local-variable scoping made explicit: the local
`tidal_energy_data` is unbound when the section starts and is assigned
only inside the `if m.enable_idemix:` branch; the `else:` branch
nevertheless reads it (Python evaluates the right-hand side of the
slice assignment first). -/
def tidalForcingSection (nx ny npdim : ℕ) (enable_idemix enable_idemix_M2 : Bool)
    (rawTidal : ℕ → ℕ → ℚ) (maskW : ℕ → ℕ → ℕ → ℚ) (kbot : ℕ → ℕ → ℤ)
    (rho0 twopi : ℚ) (st : TidalState) : Except PyErr TidalState :=
  let tidal_energy_data : Option (ℕ → ℕ → ℚ) := none
  if enable_idemix then
    let tidal_energy_data := some (scaledTidal rawTidal maskW kbot rho0)
    if enable_idemix_M2 then do
      let v ← readLocal tidal_energy_data
      let m2 ← writeAttr st.forc_M2 (fun old i j p =>
        if interiorXY nx ny i j ∧ 1 ≤ p ∧ p < npdim - 1 then
          (1 / 2) * v (i - 2) (j - 2) / twopi
        else old i j p)
      Except.ok { st with forc_M2 := m2 }
    else do
      let v ← readLocal tidal_energy_data
      let fb ← writeAttr st.forc_iw_bottom (fun old i j =>
        if interiorXY nx ny i j then (1 / 2) * v (i - 2) (j - 2) else old i j)
      Except.ok { st with forc_iw_bottom := fb }
  else do
    let v ← readLocal tidal_energy_data
    let fb ← writeAttr st.forc_iw_bottom (fun old i j =>
      if interiorXY nx ny i j then v (i - 2) (j - 2) else old i j)
    Except.ok { st with forc_iw_bottom := fb }

/-! #### `GlobalOneDegree.set_topography` (lines 328-355)

`kbot` is an `(nx+4, ny+4)` integer array, zero-initialised by
`PyOM.allocate`.  The setup walks the vertical levels from `nz-1` down to
`0` marking `k+1` wherever the climatology salinity is nonzero, zeroes
cells where the bathymetry is zero, clamps at `nz`, and finally closes
three hard-coded channels.  Channel coordinates are data coordinates
(offset by 2 from array coordinates). -/

/-- One iteration of the downward loop:
`m.kbot[2:-2, 2:-2][salt_data[:, :, k] != 0] = k+1`. -/
def applySaltLevel (nx ny : ℕ) (saltData : ℕ → ℕ → ℕ → ℚ) (k : ℕ)
    (kb : ℕ → ℕ → ℤ) : ℕ → ℕ → ℤ :=
  fun i j =>
    if interiorXY nx ny i j ∧ saltData (i - 2) (j - 2) k ≠ 0 then (k : ℤ) + 1
    else kb i j

/-- `m.kbot[2:-2, 2:-2][bathymetry_data == 0] = 0`. -/
def applyBathymetry (nx ny : ℕ) (bathy : ℕ → ℕ → ℚ) (kb : ℕ → ℕ → ℤ) : ℕ → ℕ → ℤ :=
  fun i j =>
    if interiorXY nx ny i j ∧ bathy (i - 2) (j - 2) = 0 then 0 else kb i j

/-- `m.kbot = np.minimum(m.kbot, m.nz)`. -/
def clampKbot (nz : ℕ) (kb : ℕ → ℕ → ℤ) : ℕ → ℕ → ℤ :=
  fun i j => min (kb i j) (nz : ℤ)

/-- `(i >= 207) & (i < 214) & (j < 5)`: the closed channel near i=208..214. -/
def channelA (i j : ℕ) : Prop := 207 ≤ i ∧ i < 214 ∧ j < 5

/-- `(i == 104) & (j == 134)`: the Aleutian island cell. -/
def channelB (i j : ℕ) : Prop := i = 104 ∧ j = 134

/-- `(i >= 269) & (i < 271) & (j == 130)`: the English Channel cells. -/
def channelC (i j : ℕ) : Prop := 269 ≤ i ∧ i < 271 ∧ j = 130

instance (i j : ℕ) : Decidable (channelA i j) := inferInstanceAs (Decidable (_ ∧ _ ∧ _))
instance (i j : ℕ) : Decidable (channelB i j) := inferInstanceAs (Decidable (_ ∧ _))
instance (i j : ℕ) : Decidable (channelC i j) := inferInstanceAs (Decidable (_ ∧ _ ∧ _))

/-- `m.kbot[2:-2, 2:-2][mask_channel] = 0` for one channel mask. -/
def applyChannel (nx ny : ℕ) (ch : ℕ → ℕ → Prop) [h : ∀ i j, Decidable (ch i j)]
    (kb : ℕ → ℕ → ℤ) : ℕ → ℕ → ℤ :=
  fun i j =>
    if interiorXY nx ny i j ∧ ch (i - 2) (j - 2) then 0 else kb i j

/-- The bottom-index map produced by `GlobalOneDegree.set_topography`:
starts from the zero array, applies the salinity loop for
`k = nz-1, ..., 0`, the bathymetry zeroing, the clamp at `nz`, and the
three channel closures, in source order. -/
def setTopographyKbot (nx ny nz : ℕ) (saltData : ℕ → ℕ → ℕ → ℚ)
    (bathy : ℕ → ℕ → ℚ) : ℕ → ℕ → ℤ :=
  applyChannel nx ny channelC
    (applyChannel nx ny channelB
      (applyChannel nx ny channelA
        (clampKbot nz
          (applyBathymetry nx ny bathy
            (((List.range nz).reverse).foldl
              (fun kb k => applySaltLevel nx ny saltData k kb)
              (fun _ _ => (0 : ℤ)))))))

/-! ## Part 3: veros diagnostics -/

/-! ### TracerMonitor (src/veros/diagnostics/tracer_monitor.py)

Arrays are total functions; the `[2:-2, 2:-2]` slices of the
`(nx+4, ny+4, nz)`-shaped grid arrays are summed by shifting data
coordinates by 2.  Exact rational arithmetic stands in for float64. -/

/-- The stored previous-content values of the monitor
(`tempm1`, `vtemp1`, `saltm1`, `vsalt1`). -/
structure TracerMonState where
  tempm1 : ℚ
  saltm1 : ℚ
  vtemp1 : ℚ
  vsalt1 : ℚ
deriving DecidableEq

/-- Inputs `TracerMonitor.output` reads from the simulation state. -/
structure TracerInputs where
  nx : ℕ
  ny : ℕ
  nz : ℕ
  area_t : ℕ → ℕ → ℚ
  dzt : ℕ → ℚ
  maskT : ℕ → ℕ → ℕ → ℚ
  temp : ℕ → ℕ → ℕ → ℕ → ℚ
  salt : ℕ → ℕ → ℕ → ℕ → ℚ
  tau : ℕ

/-- Sum of `f` over the interior cells, i.e. over the
`[2:-2, 2:-2, :]` slice (`np.sum` plus the trivial single-process
`global_sum`). -/
def interiorSum (nx ny nz : ℕ) (f : ℕ → ℕ → ℕ → ℚ) : ℚ :=
  ∑ i ∈ Finset.range nx, ∑ j ∈ Finset.range ny, ∑ k ∈ Finset.range nz, f (i + 2) (j + 2) k

/-- `cell_volume = area_t[2:-2, 2:-2, np.newaxis] * dzt * maskT[2:-2, 2:-2, :]`
(tracer_monitor.py lines 38-39), as a function of array coordinates. -/
def cellVolume (v : TracerInputs) : ℕ → ℕ → ℕ → ℚ :=
  fun i j k => v.area_t i j * v.dzt k * v.maskT i j k

/-- `volm = global_sum(np.sum(cell_volume))`. -/
def volm (v : TracerInputs) : ℚ :=
  interiorSum v.nx v.ny v.nz (cellVolume v)

/-- `tempm = global_sum(np.sum(cell_volume * temp[2:-2, 2:-2, :, tau]))`. -/
def tempm (v : TracerInputs) : ℚ :=
  interiorSum v.nx v.ny v.nz (fun i j k => cellVolume v i j k * v.temp i j k v.tau)

/-- `saltm = global_sum(np.sum(cell_volume * salt[2:-2, 2:-2, :, tau]))`. -/
def saltm (v : TracerInputs) : ℚ :=
  interiorSum v.nx v.ny v.nz (fun i j k => cellVolume v i j k * v.salt i j k v.tau)

/-- `vtemp = global_sum(np.sum(cell_volume * temp[2:-2, 2:-2, :, tau]**2))`. -/
def vtemp (v : TracerInputs) : ℚ :=
  interiorSum v.nx v.ny v.nz (fun i j k => cellVolume v i j k * (v.temp i j k v.tau) ^ 2)

/-- `vsalt = global_sum(np.sum(cell_volume * salt[2:-2, 2:-2, :, tau]**2))`. -/
def vsalt (v : TracerInputs) : ℚ :=
  interiorSum v.nx v.ny v.nz (fun i j k => cellVolume v i j k * (v.salt i j k v.tau) ^ 2)

/-- `TracerMonitor.output` (lines 31-57): computes the four contents,
reports them (the log lines read the previous stored values), then
stores the just-computed contents. -/
def tracerMonitorOutput (v : TracerInputs) (_prev : TracerMonState) : TracerMonState :=
  { tempm1 := tempm v
    vtemp1 := vtemp v
    saltm1 := saltm v
    vsalt1 := vsalt v }

/-! ### Overturning diagnostic (src/veros/diagnostics/overturning.py)

The per-latitude/per-level arrays are flattened to functions `ℕ → ℚ`;
the claim concerns only the uniform scalar treatment (accumulate, divide
by the sample count, reset), which acts pointwise. -/

/-- The restartable variables of the diagnostic: the sample counter and
the five accumulated output arrays. -/
structure OvtVars where
  nitts : ℕ
  trans : ℕ → ℚ
  vsf_iso : ℕ → ℚ
  vsf_depth : ℕ → ℚ
  bolus_iso : ℕ → ℚ
  bolus_depth : ℕ → ℚ

/-- Per-call increments computed by `diagnose_kernel` (the transport
sums, interpolations and bolus terms of lines 148-234, abstracted as the
values the kernel adds this call). -/
structure OvtDelta where
  trans : ℕ → ℚ
  vsf_iso : ℕ → ℚ
  vsf_depth : ℕ → ℚ
  bolus_iso : ℕ → ℚ
  bolus_depth : ℕ → ℚ

/-- `bolus_iso`/`bolus_depth` are registered output variables only when
both `enable_neutral_diffusion` and `enable_skew_diffusion` are set
(their `active` predicate in VARIABLES, filtered in `__init__`). -/
def bolusActive (enable_neutral_diffusion enable_skew_diffusion : Bool) : Bool :=
  enable_neutral_diffusion && enable_skew_diffusion

/-- `Overturning.diagnose` (lines 105-108): run the kernel, which adds
this call's contribution onto each accumulated array (`update_add`; the
bolus arrays only when active), then `nitts += 1`. -/
def ovtDiagnose (act : Bool) (d : OvtDelta) (s : OvtVars) : OvtVars :=
  { nitts := s.nitts + 1
    trans := fun x => s.trans x + d.trans x
    vsf_iso := fun x => s.vsf_iso x + d.vsf_iso x
    vsf_depth := fun x => s.vsf_depth x + d.vsf_depth x
    bolus_iso := if act then fun x => s.bolus_iso x + d.bolus_iso x else s.bolus_iso
    bolus_depth := if act then fun x => s.bolus_depth x + d.bolus_depth x else s.bolus_depth }

/-- The values `write_output` receives: the three mean variables plus,
when active, the two bolus variables. -/
structure OvtWritten where
  trans : ℕ → ℚ
  vsf_iso : ℕ → ℚ
  vsf_depth : ℕ → ℚ
  bolus_iso : Option (ℕ → ℚ)
  bolus_depth : Option (ℕ → ℚ)

/-- `Overturning.output` (lines 110-135).  `mean_variables` is the
source's tuple `("trans", "vsf_iso", "vsf_depth")`: when `nitts > 0`
exactly those three are divided by `nitts`; after writing, exactly those
three are multiplied by zero and `nitts` is reset.  The bolus arrays are
written as they stand and are left untouched. -/
def ovtOutput (act : Bool) (s : OvtVars) : OvtWritten × OvtVars :=
  let divd : (ℕ → ℚ) → (ℕ → ℚ) := fun v =>
    if 0 < s.nitts then (fun x => v x / (s.nitts : ℚ)) else v
  let written : OvtWritten :=
    { trans := divd s.trans
      vsf_iso := divd s.vsf_iso
      vsf_depth := divd s.vsf_depth
      bolus_iso := if act then some s.bolus_iso else none
      bolus_depth := if act then some s.bolus_depth else none }
  (written,
   { nitts := 0
     trans := fun x => divd s.trans x * 0
     vsf_iso := fun x => divd s.vsf_iso x * 0
     vsf_depth := fun x => divd s.vsf_depth x * 0
     bolus_iso := s.bolus_iso
     bolus_depth := s.bolus_depth })

/-! ### Auxiliary definitions used by the claim statements -/

/-- The index triple is a permutation of `{0, 1, 2}` with pairwise
distinct entries. -/
def tauPerm012 (s : TauTriple) : Prop :=
  s.taum1 < 3 ∧ s.tau < 3 ∧ s.taup1 < 3
    ∧ s.taum1 ≠ s.tau ∧ s.tau ≠ s.taup1 ∧ s.taum1 ≠ s.taup1

/-- The spec's volume integral, written from the spec's words
(`Σ cell_volume * tracer` with `cell_volume = area_t · dzt · maskT` over
the interior grid cells): kept separate from the code-side `tempm` /
`saltm` so the two can be compared. -/
def specTracerIntegral (v : TracerInputs) (tracer : ℕ → ℕ → ℕ → ℕ → ℚ) (slot : ℕ) : ℚ :=
  interiorSum v.nx v.ny v.nz
    (fun i j k => v.area_t i j * v.dzt k * v.maskT i j k * tracer i j k slot)

/-- A concrete 1×1×1 instance for evaluating the tracer monitor: one
interior cell, a land mask, nonzero tracer data. -/
def sampleTracerInputs : TracerInputs :=
  { nx := 1, ny := 1, nz := 1
    area_t := fun _ _ => 2
    dzt := fun _ => 3
    maskT := fun _ _ _ => 0
    temp := fun _ _ _ _ => 7
    salt := fun _ _ _ _ => 11
    tau := 1 }

/-- Freshly initialised overturning accumulators. -/
def zeroOvt : OvtVars :=
  { nitts := 0
    trans := fun _ => 0
    vsf_iso := fun _ => 0
    vsf_depth := fun _ => 0
    bolus_iso := fun _ => 0
    bolus_depth := fun _ => 0 }

/-- A per-call kernel contribution of 3 on every entry. -/
def sampleDelta : OvtDelta :=
  { trans := fun _ => 3
    vsf_iso := fun _ => 3
    vsf_depth := fun _ => 3
    bolus_iso := fun _ => 3
    bolus_depth := fun _ => 3 }

/-- Accumulator state after two `diagnose` calls with the bolus
variables active: every accumulator holds 6 and `nitts = 2`. -/
def sampleOvt : OvtVars :=
  ovtDiagnose true sampleDelta (ovtDiagnose true sampleDelta zeroOvt)

/-! ## Claim theorems -/

/-! ### Helper lemmas -/

lemma stepTrace_filter (c : Config) (t : ℕ) :
    stepTrace c t = (masterList t).filter (enabledIn c) := by
  simp [stepTrace, bodyTrace, masterList, List.filter_append, enabledIn]

lemma mem_stepTrace {c : Config} {t : ℕ} {e : Event} :
    e ∈ stepTrace c t ↔ e ∈ masterList t ∧ enabledIn c e = true := by
  rw [stepTrace_filter]; exact List.mem_filter

lemma stageNum_mapSlot (t : ℕ) (e : Event) : stageNum (mapSlot t e) = stageNum e := by
  cases e <;> rfl

lemma masterList_eq_map (t : ℕ) :
    masterList t = (masterList 0).map (mapSlot t) := by
  rfl

lemma masterList_sorted (t : ℕ) :
    (masterList t).Pairwise (fun a b => stageNum a < stageNum b) := by
  rw [masterList_eq_map]
  exact List.Pairwise.map (mapSlot t)
    (fun a b h => by rwa [stageNum_mapSlot, stageNum_mapSlot])
    (by decide)

/-- The loop-body trace is strictly increasing in source-stage order, for
every configuration and every slot value. -/
lemma stepTrace_sorted (c : Config) (t : ℕ) :
    (stepTrace c t).Pairwise (fun a b => stageNum a < stageNum b) := by
  rw [stepTrace_filter]
  exact List.Pairwise.sublist (List.filter_sublist _) (masterList_sorted t)

/-- In a stage-sorted trace, an occurrence of a lower-numbered stage comes
strictly before an occurrence of a higher-numbered stage. -/
lemma get_lt_of_stageNum_lt {c : Config} {t : ℕ} {i j : ℕ}
    (hi : i < (stepTrace c t).length) (hj : j < (stepTrace c t).length)
    (h : stageNum ((stepTrace c t).get ⟨i, hi⟩) < stageNum ((stepTrace c t).get ⟨j, hj⟩)) :
    i < j := by
  by_contra hij
  push_neg at hij
  rcases Nat.lt_or_ge j i with hji | hji
  · have := (List.pairwise_iff_get.mp (stepTrace_sorted c t)) ⟨j, hj⟩ ⟨i, hi⟩ hji
    omega
  · have : j = i := by omega
    subst this
    omega

lemma tauAfter_mem_cycle (n : ℕ) :
    tauAfter n ∈ [(⟨0, 1, 2⟩ : TauTriple), ⟨1, 2, 0⟩, ⟨2, 0, 1⟩] := by
  induction n with
  | zero => simp [tauAfter, initialTau]
  | succ n ih =>
    simp only [List.mem_cons, List.not_mem_nil, or_false] at ih ⊢
    rcases ih with h | h | h <;> simp [tauAfter, h, rotateTau]

lemma runSteps_taus {V : Type} (writes : ℕ → V) (slots0 : ℕ → V) (n : ℕ) :
    (runSteps writes slots0 n).taus = tauAfter n := by
  induction n with
  | zero => rfl
  | succ n ih => simp [runSteps, advanceStep, tauAfter, ih]

/-- C1: In every iteration of the main loop of `PyOM.run`, the stages
execute in the fixed source order (the trace is strictly sorted by
source-stage position): forcing update; closure-parameter precompute
(IDEMIX parameters when enabled, then the unconditional EKE and TKE
diffusivity updates); the momentum solve; the thermodynamics solve; the
w-grid velocity interpolation when any of EKE/TKE/IDEMIX is enabled; the
enabled closures in the order EKE, then IDEMIX, then TKE; the cyclic
boundary exchange; the time-level rotation.  In particular every
occurrence of the thermodynamics (tracer) solve comes strictly after
every occurrence of the momentum solve in the same step. -/
theorem claim_C1_stage_order (c : Config) (t : ℕ) :
    (stepTrace c t).Pairwise (fun a b => stageNum a < stageNum b)
    ∧ Event.setForcing ∈ stepTrace c t
    ∧ Event.setEkeDiffusivities ∈ stepTrace c t
    ∧ Event.setTkeDiffusivities ∈ stepTrace c t
    ∧ Event.momentumStep ∈ stepTrace c t
    ∧ Event.thermodynamicsStep ∈ stepTrace c t
    ∧ Event.rotateTimeLevels ∈ stepTrace c t
    ∧ (c.enable_idemix = true → Event.setIdemixParameter ∈ stepTrace c t)
    ∧ ((c.enable_eke || c.enable_tke || c.enable_idemix) = true →
        Event.calcVelocityOnWgrid ∈ stepTrace c t)
    ∧ (c.enable_eke = true → Event.integrateEke ∈ stepTrace c t)
    ∧ (c.enable_idemix = true → Event.integrateIdemix ∈ stepTrace c t)
    ∧ (c.enable_tke = true → Event.integrateTke ∈ stepTrace c t)
    ∧ (∀ i j (hi : i < (stepTrace c t).length) (hj : j < (stepTrace c t).length),
        (stepTrace c t).get ⟨i, hi⟩ = Event.momentumStep →
        (stepTrace c t).get ⟨j, hj⟩ = Event.thermodynamicsStep → i < j) := by
  refine ⟨stepTrace_sorted c t,
    mem_stepTrace.mpr ⟨by simp [masterList, masterBody], rfl⟩,
    mem_stepTrace.mpr ⟨by simp [masterList, masterBody], rfl⟩,
    mem_stepTrace.mpr ⟨by simp [masterList, masterBody], rfl⟩,
    mem_stepTrace.mpr ⟨by simp [masterList, masterBody], rfl⟩,
    mem_stepTrace.mpr ⟨by simp [masterList, masterBody], rfl⟩,
    mem_stepTrace.mpr ⟨by simp [masterList, masterBody], rfl⟩,
    fun h => mem_stepTrace.mpr ⟨by simp [masterList, masterBody], h⟩,
    fun h => mem_stepTrace.mpr ⟨by simp [masterList, masterBody], h⟩,
    fun h => mem_stepTrace.mpr ⟨by simp [masterList, masterBody], h⟩,
    fun h => mem_stepTrace.mpr ⟨by simp [masterList, masterBody], h⟩,
    fun h => mem_stepTrace.mpr ⟨by simp [masterList, masterBody], h⟩,
    ?_⟩
  intro i j hi hj hmom hth
  apply get_lt_of_stageNum_lt hi hj
  rw [hmom, hth]
  simp [stageNum]

/-- Witness for C1 at the shipped one-degree configuration with
`taup1 = 2`: the conditional stages are present, and the momentum solve
(position 4) precedes the thermodynamics solve (position 5). -/
theorem claim_C1_stage_order_witness :
    (Event.calcVelocityOnWgrid ∈ stepTrace oneDegConfig 2
     ∧ Event.integrateEke ∈ stepTrace oneDegConfig 2
     ∧ Event.integrateIdemix ∈ stepTrace oneDegConfig 2
     ∧ Event.integrateTke ∈ stepTrace oneDegConfig 2)
    ∧ (4 : ℕ) < 5 := by
  obtain ⟨-, -, -, -, -, -, -, -, h9, h10, h11, h12, h13⟩ :=
    claim_C1_stage_order oneDegConfig 2
  exact ⟨⟨h9 (by decide), h10 (by decide), h11 (by decide), h12 (by decide)⟩,
    h13 4 5 (by decide) (by decide) (by decide) (by decide)⟩

lemma tauAfter_perm (n : ℕ) : tauPerm012 (tauAfter n) := by
  have h := tauAfter_mem_cycle n
  simp only [List.mem_cons, List.not_mem_nil, or_false] at h
  rcases h with h | h | h <;> rw [h] <;> exact ⟨by decide, by decide, by decide,
    by decide, by decide, by decide⟩

/-- C2: the three time-slot indices start as `(0, 1, 2)`; each completed
step replaces them by the pure index permutation
`taum1 ← tau, tau ← taup1, taup1 ← taum1` while touching no slot other
than the written `taup1` slot; the triple stays a pairwise-distinct
permutation of `{0, 1, 2}` after every number of steps; and the slot the
new `taum1` points at holds exactly the value the old `tau` pointed at,
i.e. after `N` steps the past slot holds the values that were current
after step `N-1`. -/
theorem claim_C2_time_rotation {V : Type} (writes : ℕ → V) (slots0 : ℕ → V) (n : ℕ) :
    (runSteps writes slots0 0).taus = initialTau
    ∧ (runSteps writes slots0 (n + 1)).taus = rotateTau (runSteps writes slots0 n).taus
    ∧ ((runSteps writes slots0 (n + 1)).taus.taum1 = (runSteps writes slots0 n).taus.tau
       ∧ (runSteps writes slots0 (n + 1)).taus.tau = (runSteps writes slots0 n).taus.taup1
       ∧ (runSteps writes slots0 (n + 1)).taus.taup1 = (runSteps writes slots0 n).taus.taum1)
    ∧ tauPerm012 (runSteps writes slots0 n).taus
    ∧ (runSteps writes slots0 (n + 1)).slots (runSteps writes slots0 (n + 1)).taus.taum1
        = (runSteps writes slots0 n).slots (runSteps writes slots0 n).taus.tau := by
  have hperm : tauPerm012 (runSteps writes slots0 n).taus := by
    rw [runSteps_taus]; exact tauAfter_perm n
  refine ⟨rfl, rfl, ⟨rfl, rfl, rfl⟩, hperm, ?_⟩
  show (advanceStep (writes n) (runSteps writes slots0 n)).slots _ = _
  have hne : (runSteps writes slots0 n).taus.tau ≠ (runSteps writes slots0 n).taus.taup1 :=
    hperm.2.2.2.2.1
  simp only [advanceStep, rotateTau]
  exact Function.update_noteq hne _ _

lemma runLoopAux_fail (g : ℕ → Event → Option PyErr) (c : Config) :
    ∀ (k fuel : ℕ) (s : RunState) (err : PyErr),
      s.itt + k < s.enditt → k < fuel →
      (∀ i, i < k →
        firstFailure (g (s.itt + i)) (bodyTrace c ((rotateTau^[i]) s.taus).taup1) = none) →
      firstFailure (g (s.itt + k)) (bodyTrace c ((rotateTau^[k]) s.taus).taup1) = some err →
      runLoopAux g c fuel s = ({ okAdvance k s with panics := s.panics + 1 }, some err) := by
  intro k
  induction k with
  | zero =>
    intro fuel s err hlt hfuel hok hfail
    match fuel, hfuel with
    | fuel + 1, _ =>
      simp only [Function.iterate_zero, id_eq, Nat.add_zero] at hfail
      simp only [runLoopAux, if_pos (by omega : s.itt < s.enditt), stepResult, hfail]
      simp [okAdvance]
  | succ k ih =>
    intro fuel s err hlt hfuel hok hfail
    match fuel, hfuel with
    | fuel + 1, _ =>
      have h0 : firstFailure (g (s.itt + 0)) (bodyTrace c ((rotateTau^[0]) s.taus).taup1)
          = none := hok 0 (Nat.succ_pos k)
      simp only [Function.iterate_zero, id_eq, Nat.add_zero] at h0
      simp only [runLoopAux, if_pos (by omega : s.itt < s.enditt), stepResult, h0]
      have hrec := ih fuel (stepOk s) err
        (by simp [stepOk]; omega) (by omega)
        (fun i hi => by
          have := hok (i + 1) (by omega)
          simpa [stepOk, Function.iterate_succ_apply, Nat.add_assoc, Nat.add_comm 1 i]
            using this)
        (by
          have := hfail
          simpa [stepOk, Function.iterate_succ_apply, Nat.add_assoc, Nat.add_comm 1 k]
            using this)
      rw [hrec]
      simp only [okAdvance, stepOk, Function.iterate_succ_apply, Prod.mk.injEq,
        RunState.mk.injEq]
      exact ⟨⟨by omega, trivial, trivial, trivial, by omega⟩, trivial⟩

/-- C3: if a stage call raises during iteration `k` of the main loop
(the first `k` iterations having completed), then `diagnostics.panic_snap`
runs exactly once on the failing state and the same exception is returned
to the caller of `run`; the failed step leaves `itt` at its pre-step
value `itt0 + k`, the index triple un-rotated (the failed step's `next`
slot is never promoted), and no retry or further iteration happens
(`stepsDone` counts exactly the `k` completed steps). -/
theorem claim_C3_failure_path (g : ℕ → Event → Option PyErr) (c : Config)
    (s : RunState) (err : PyErr) (k : ℕ)
    (hlt : s.itt + k < s.enditt)
    (hok : ∀ i, i < k →
      firstFailure (g (s.itt + i)) (bodyTrace c ((rotateTau^[i]) s.taus).taup1) = none)
    (hfail : firstFailure (g (s.itt + k)) (bodyTrace c ((rotateTau^[k]) s.taus).taup1)
      = some err) :
    runLoop g c s = ({ okAdvance k s with panics := s.panics + 1 }, some err) :=
  runLoopAux_fail g c k (s.enditt - s.itt) s err hlt (by omega) hok hfail

/-- Witness for C3: a run of three scheduled steps whose first step's
momentum solve raises; the loop returns that error with one panic
snapshot, `itt` still 0, indices un-rotated and zero completed steps. -/
theorem claim_C3_failure_path_witness :
    runLoop
      (fun i e => if i = 0 ∧ e = Event.momentumStep then some (PyErr.stageFailure 7) else none)
      oneDegConfig ⟨0, 3, initialTau, 0, 0⟩
      = ({ itt := 0, enditt := 3, taus := initialTau, panics := 1, stepsDone := 0 },
         some (PyErr.stageFailure 7)) := by
  have h := claim_C3_failure_path
    (fun i e => if i = 0 ∧ e = Event.momentumStep then some (PyErr.stageFailure 7) else none)
    oneDegConfig ⟨0, 3, initialTau, 0, 0⟩ (PyErr.stageFailure 7) 0
    (by decide)
    (fun i hi => absurd hi (Nat.not_lt_zero i))
    (by decide)
  simpa [okAdvance] using h

/-- C4 counterexample: in the shipped one-degree configuration (cyclic-x
enabled) with `taup1 = 2`, the temperature field is written during the
step (by the thermodynamics stage), yet no `setcyclic_x` call on `temp`
at slot 2 occurs anywhere in the loop body of `run` — in particular not
between the closure stages and the rotation, contradicting the claim
that the exchange block covers every prognostic field written in the
step. -/
theorem claim_C4_counterexample :
    PField.temp ∈ writtenFields oneDegConfig 2
    ∧ Event.setcyclicX PField.temp 2 ∉ stepTrace oneDegConfig 2 := by
  decide

lemma setcyclic_mem_masterList {f : PField} {s t : ℕ} :
    Event.setcyclicX f s ∈ masterList t ↔
      s = t ∧ (f = PField.u ∨ f = PField.v ∨ f = PField.tke ∨ f = PField.eke
        ∨ f = PField.E_iw ∨ f = PField.E_M2 ∨ f = PField.E_niw) := by
  simp only [masterList, masterBody, List.mem_append, List.mem_cons,
    List.not_mem_nil, or_false, Event.setcyclicX.injEq]
  constructor
  · rintro ((h | h | h | h | h | h | h | h | h | h | h | h | h | h
      | ⟨hf, hs⟩ | ⟨hf, hs⟩ | ⟨hf, hs⟩ | ⟨hf, hs⟩ | ⟨hf, hs⟩ | ⟨hf, hs⟩ | ⟨hf, hs⟩
      | h | h) | h) <;> first
    | exact absurd h (by simp)
    | exact ⟨hs, by tauto⟩
  · rintro ⟨hs, hf | hf | hf | hf | hf | hf | hf⟩ <;> subst hs <;> subst hf <;> tauto

/-- C4 amended: when `enable_cyclic_x` is set, the exchange block applies
`setcyclic_x` at exactly the step's `taup1` slot to exactly `u`, `v` and
the enabled closure energy fields (`tke`, `eke`, `E_iw`, `E_M2`,
`E_niw`); every exchange call comes after every enabled closure
integration and before the time-level rotation.  The tracer fields
written by the thermodynamics stage are not exchanged in this block (the
source comments that their exchange happens inside the tracer solve). -/
theorem claim_C4_amended (c : Config) (t : ℕ) (h : c.enable_cyclic_x = true) :
    (∀ (f : PField) (s : ℕ), Event.setcyclicX f s ∈ stepTrace c t ↔
      (s = t ∧ (f = PField.u ∨ f = PField.v
        ∨ (f = PField.tke ∧ c.enable_tke = true)
        ∨ (f = PField.eke ∧ c.enable_eke = true)
        ∨ (f = PField.E_iw ∧ c.enable_idemix = true)
        ∨ (f = PField.E_M2 ∧ c.enable_idemix_M2 = true)
        ∨ (f = PField.E_niw ∧ c.enable_idemix_niw = true))))
    ∧ (∀ (f : PField) (s i j : ℕ)
        (hi : i < (stepTrace c t).length) (hj : j < (stepTrace c t).length),
        (stepTrace c t).get ⟨i, hi⟩ = Event.setcyclicX f s →
        (stepTrace c t).get ⟨j, hj⟩ = Event.rotateTimeLevels → i < j)
    ∧ (∀ (f : PField) (s i j : ℕ)
        (hi : i < (stepTrace c t).length) (hj : j < (stepTrace c t).length),
        ((stepTrace c t).get ⟨i, hi⟩ = Event.integrateEke
          ∨ (stepTrace c t).get ⟨i, hi⟩ = Event.integrateIdemix
          ∨ (stepTrace c t).get ⟨i, hi⟩ = Event.integrateTke) →
        (stepTrace c t).get ⟨j, hj⟩ = Event.setcyclicX f s → i < j) := by
  refine ⟨?_, ?_, ?_⟩
  · intro f s
    rw [mem_stepTrace, setcyclic_mem_masterList]
    cases f <;> simp [enabledIn, h]
  · intro f s i j hi hj h1 h2
    apply get_lt_of_stageNum_lt hi hj
    rw [h1, h2]
    cases f <;> simp [stageNum, fieldNum]
  · intro f s i j hi hj h1 h2
    apply get_lt_of_stageNum_lt hi hj
    rcases h1 with h1 | h1 | h1 <;> rw [h1, h2] <;> cases f <;> simp [stageNum, fieldNum]

/-- Witness for C4 amended at the one-degree configuration, slot 2: the
`eke` exchange is present and the `temp` exchange absent. -/
theorem claim_C4_amended_witness :
    Event.setcyclicX PField.eke 2 ∈ stepTrace oneDegConfig 2
    ∧ ¬ Event.setcyclicX PField.temp 2 ∈ stepTrace oneDegConfig 2 := by
  have h := (claim_C4_amended oneDegConfig 2 rfl).1
  constructor
  · exact (h PField.eke 2).mpr ⟨rfl, by tauto⟩
  · intro hc
    have := (h PField.temp 2).mp hc
    simp at this

/-- C5: a configuration enabling TKE without implicit vertical friction
makes the check at the end of `PyOM.setup` raise `RuntimeError`, and
because `run` invokes `setup` before entering the loop, `run` propagates
that error with the state untouched: no timestep is ever executed.  The
`none` argument records that the setup stages before the check completed
normally. -/
theorem claim_C5_tke_config_check (g : ℕ → Event → Option PyErr) (c : Config)
    (s : RunState)
    (h1 : c.enable_tke = true) (h2 : c.enable_implicit_vert_friction = false) :
    pyomSetup c none = some PyErr.runtimeError
    ∧ pyomRun g c none s = (s, some PyErr.runtimeError) := by
  have hchk : setupCheck c = some PyErr.runtimeError := by
    simp [setupCheck, h1, h2]
  exact ⟨hchk, by simp [pyomRun, pyomSetup, hchk]⟩

/-- Witness for C5: the concrete bad configuration aborts a three-step
run before any iteration. -/
theorem claim_C5_tke_config_check_witness :
    pyomRun (fun _ _ => none)
      ⟨false, false, false, false, true, false, true, false⟩ none
      ⟨0, 3, initialTau, 0, 0⟩
      = (⟨0, 3, initialTau, 0, 0⟩, some PyErr.runtimeError) :=
  (claim_C5_tke_config_check (fun _ _ => none)
    ⟨false, false, false, false, true, false, true, false⟩
    ⟨0, 3, initialTau, 0, 0⟩ rfl rfl).2

/-- C6: after the initial-condition assignment of
`GlobalOneDegree.set_initial_conditions`, temperature and salinity are
exactly zero at every cell whose tracer mask is zero, in both
initialised time slots (0 and 1); the arrays start from the
zero-initialised allocation, so this holds at halo cells as well as at
masked interior cells (where the data is multiplied by the zero mask). -/
theorem claim_C6_masked_initial_tracers (nx ny nz : ℕ)
    (tempData saltData maskT : ℕ → ℕ → ℕ → ℚ) (i j k : ℕ)
    (hm : maskT i j k = 0) :
    (setInitialTracer nx ny nz tempData maskT allocatedTracer i j k 0 = 0
     ∧ setInitialTracer nx ny nz tempData maskT allocatedTracer i j k 1 = 0)
    ∧ (setInitialTracer nx ny nz saltData maskT allocatedTracer i j k 0 = 0
       ∧ setInitialTracer nx ny nz saltData maskT allocatedTracer i j k 1 = 0) := by
  refine ⟨⟨?_, ?_⟩, ?_, ?_⟩ <;>
  · unfold setInitialTracer
    split
    · rw [hm, mul_zero]
    · rfl

/-- Witness for C6 on a 1×1×1 grid with an all-land mask and nonzero
climatology data. -/
theorem claim_C6_masked_initial_tracers_witness :
    setInitialTracer 1 1 1 (fun _ _ _ => 5) (fun _ _ _ => 0) allocatedTracer 2 2 0 0 = 0
    ∧ setInitialTracer 1 1 1 (fun _ _ _ => 9) (fun _ _ _ => 0) allocatedTracer 2 2 0 1 = 0 := by
  have h := claim_C6_masked_initial_tracers 1 1 1
    (fun _ _ _ => 5) (fun _ _ _ => 9) (fun _ _ _ => 0) 2 2 0 rfl
  exact ⟨h.1.1, h.2.2⟩

/-- C7: `TracerMonitor.output` computes the tracer contents as the
spec's volume integral `Σ cell_volume * tracer` with
`cell_volume = area_t · dzt · maskT` over the interior cells at the
current (`tau`) slot; every summand (volume, both contents, both squared
contents) vanishes at cells with zero mask; and the stored
previous-content values equal exactly the contents just computed. -/
theorem claim_C7_tracer_content (v : TracerInputs) (prev : TracerMonState) :
    (tempm v = specTracerIntegral v v.temp v.tau
     ∧ saltm v = specTracerIntegral v v.salt v.tau)
    ∧ (∀ i j k, v.maskT i j k = 0 →
        cellVolume v i j k = 0
        ∧ cellVolume v i j k * v.temp i j k v.tau = 0
        ∧ cellVolume v i j k * v.salt i j k v.tau = 0
        ∧ cellVolume v i j k * (v.temp i j k v.tau) ^ 2 = 0
        ∧ cellVolume v i j k * (v.salt i j k v.tau) ^ 2 = 0)
    ∧ (tracerMonitorOutput v prev).tempm1 = tempm v
    ∧ (tracerMonitorOutput v prev).saltm1 = saltm v
    ∧ (tracerMonitorOutput v prev).vtemp1 = vtemp v
    ∧ (tracerMonitorOutput v prev).vsalt1 = vsalt v := by
  refine ⟨⟨rfl, rfl⟩, ?_, rfl, rfl, rfl, rfl⟩
  intro i j k hm
  have hcv : cellVolume v i j k = 0 := by
    unfold cellVolume; rw [hm, mul_zero]
  exact ⟨hcv, by rw [hcv, zero_mul], by rw [hcv, zero_mul],
    by rw [hcv, zero_mul], by rw [hcv, zero_mul]⟩

/-- Witness for C7 on the concrete 1×1×1 all-land instance. -/
theorem claim_C7_tracer_content_witness :
    cellVolume sampleTracerInputs 2 2 0 = 0
    ∧ (tracerMonitorOutput sampleTracerInputs ⟨1, 2, 3, 4⟩).tempm1 = tempm sampleTracerInputs := by
  have h := claim_C7_tracer_content sampleTracerInputs ⟨1, 2, 3, 4⟩
  exact ⟨(h.2.1 2 2 0 rfl).1, h.2.2.1⟩

/-- C8 counterexample: with the bolus variables active, accumulators
filled by two `diagnose` calls (each array entry 6, `nitts = 2`), a call
to `output` writes `bolus_iso` as the raw sum 6 — not the mean
`6 / 2 = 3` the claim requires — and leaves the `bolus_iso` accumulator
at 6 instead of resetting it to zero (while it does reset `nitts`), so
the claim fails for the bolus variables. -/
theorem claim_C8_counterexample :
    Option.map (fun f => f 0) (ovtOutput true sampleOvt).1.bolus_iso = some 6
    ∧ Option.map (fun f => f 0) (ovtOutput true sampleOvt).1.bolus_iso ≠ some (6 / 2)
    ∧ (ovtOutput true sampleOvt).2.bolus_iso 0 = 6
    ∧ (ovtOutput true sampleOvt).2.bolus_iso 0 ≠ 0
    ∧ (ovtOutput true sampleOvt).2.nitts = 0
    ∧ sampleOvt.nitts = 2 := by
  have hbi : sampleOvt.bolus_iso 0 = 6 := by
    norm_num [sampleOvt, ovtDiagnose, sampleDelta, zeroOvt]
  have hw : Option.map (fun f => f 0) (ovtOutput true sampleOvt).1.bolus_iso
      = some (sampleOvt.bolus_iso 0) := rfl
  refine ⟨?_, ?_, hbi, ?_, rfl, rfl⟩
  · rw [hw, hbi]
  · rw [hw, hbi]
    intro hc
    rw [Option.some_inj] at hc
    norm_num at hc
  · show sampleOvt.bolus_iso 0 ≠ 0
    rw [hbi]
    norm_num

/-- C8 amended: with a positive sample count, `Overturning.output`
divides exactly the three mean variables `trans`, `vsf_iso`, `vsf_depth`
by `nitts` before writing, zeroes exactly those three afterwards, and
resets `nitts`; the bolus variables (written only when active) are
output as their raw accumulated sums and keep their accumulated values,
so only the three mean variables form independent per-interval time
means. -/
theorem claim_C8_amended (act : Bool) (s : OvtVars) (h : 0 < s.nitts) :
    ((ovtOutput act s).1.trans = fun x => s.trans x / (s.nitts : ℚ))
    ∧ ((ovtOutput act s).1.vsf_iso = fun x => s.vsf_iso x / (s.nitts : ℚ))
    ∧ ((ovtOutput act s).1.vsf_depth = fun x => s.vsf_depth x / (s.nitts : ℚ))
    ∧ (∀ x, (ovtOutput act s).2.trans x = 0)
    ∧ (∀ x, (ovtOutput act s).2.vsf_iso x = 0)
    ∧ (∀ x, (ovtOutput act s).2.vsf_depth x = 0)
    ∧ (ovtOutput act s).2.nitts = 0
    ∧ ((ovtOutput act s).1.bolus_iso = if act then some s.bolus_iso else none)
    ∧ ((ovtOutput act s).1.bolus_depth = if act then some s.bolus_depth else none)
    ∧ (ovtOutput act s).2.bolus_iso = s.bolus_iso
    ∧ (ovtOutput act s).2.bolus_depth = s.bolus_depth := by
  have hd : ∀ v : ℕ → ℚ,
      (if 0 < s.nitts then (fun x => v x / (s.nitts : ℚ)) else v)
        = fun x => v x / (s.nitts : ℚ) :=
    fun v => if_pos h
  refine ⟨hd s.trans, hd s.vsf_iso, hd s.vsf_depth, ?_, ?_, ?_, rfl, rfl, rfl, rfl, rfl⟩
  all_goals exact fun x => mul_zero _

/-- Witness for C8 amended on the two-sample accumulator state. -/
theorem claim_C8_amended_witness :
    (ovtOutput true sampleOvt).2.nitts = 0
    ∧ (ovtOutput true sampleOvt).1.trans 0 = 3
    ∧ (ovtOutput true sampleOvt).2.trans 5 = 0 := by
  obtain ⟨h1, -, -, h4, -, -, h7, -, -, -, -⟩ := claim_C8_amended true sampleOvt (by decide)
  refine ⟨h7, ?_, h4 5⟩
  rw [congrFun h1 0]
  have ht : sampleOvt.trans 0 = 6 := by
    norm_num [sampleOvt, ovtDiagnose, sampleDelta, zeroOvt]
  have hn : sampleOvt.nitts = 2 := rfl
  rw [ht, hn]
  norm_num

/-- C9: with `enable_idemix` disabled, the `else:` branch of the
tidal-forcing section of `GlobalOneDegree.set_initial_conditions` reads
the local `tidal_energy_data`, which is bound only inside the
`if m.enable_idemix:` branch, so the function raises `NameError` instead
of assigning `forc_iw_bottom` and returning normally. -/
theorem claim_C9_idemix_else_branch (nx ny npdim : ℕ) (m2 : Bool)
    (rawTidal : ℕ → ℕ → ℚ) (maskW : ℕ → ℕ → ℕ → ℚ) (kbot : ℕ → ℕ → ℤ)
    (rho0 twopi : ℚ) (st : TidalState) :
    tidalForcingSection nx ny npdim false m2 rawTidal maskW kbot rho0 twopi st
      = Except.error PyErr.nameError :=
  rfl

lemma foldl_salt_bounds (nx ny : ℕ) (saltData : ℕ → ℕ → ℕ → ℚ) (nzB : ℤ) :
    ∀ ks : List ℕ, (∀ k ∈ ks, (k : ℤ) + 1 ≤ nzB) →
    ∀ kb : ℕ → ℕ → ℤ, (∀ i j, 0 ≤ kb i j ∧ kb i j ≤ nzB) →
    ∀ i j, 0 ≤ (ks.foldl (fun kb k => applySaltLevel nx ny saltData k kb) kb) i j
      ∧ (ks.foldl (fun kb k => applySaltLevel nx ny saltData k kb) kb) i j ≤ nzB := by
  intro ks
  induction ks with
  | nil => intro _ kb hkb i j; exact hkb i j
  | cons k ks ih =>
    intro hks kb hkb i j
    simp only [List.foldl_cons]
    apply ih (fun a ha => hks a (List.mem_cons_of_mem _ ha))
    intro x y
    unfold applySaltLevel
    split
    · exact ⟨by omega, hks k (List.mem_cons_self _ _)⟩
    · exact hkb x y

lemma applyChannel_bounds (nx ny : ℕ) (ch : ℕ → ℕ → Prop) [∀ i j, Decidable (ch i j)]
    (kb : ℕ → ℕ → ℤ) (nzB : ℤ) (h : ∀ i j, 0 ≤ kb i j ∧ kb i j ≤ nzB) (h0 : 0 ≤ nzB) :
    ∀ i j, 0 ≤ applyChannel nx ny ch kb i j ∧ applyChannel nx ny ch kb i j ≤ nzB := by
  intro i j
  unfold applyChannel
  split
  · exact ⟨le_refl 0, h0⟩
  · exact h i j

lemma applyChannel_zero (nx ny : ℕ) (ch : ℕ → ℕ → Prop) [∀ i j, Decidable (ch i j)]
    (kb : ℕ → ℕ → ℤ) {i j : ℕ} (hkb : kb i j = 0) :
    applyChannel nx ny ch kb i j = 0 := by
  unfold applyChannel
  split
  · rfl
  · exact hkb

/-- C10: after `GlobalOneDegree.set_topography`, every entry of the
bottom-index map `kbot` lies in `[0, nz]` (for any climatology and
bathymetry data), and every explicitly closed channel cell has
`kbot = 0`. -/
theorem claim_C10_kbot_range (nx ny nz : ℕ) (saltData : ℕ → ℕ → ℕ → ℚ)
    (bathy : ℕ → ℕ → ℚ) (i j : ℕ) :
    (0 ≤ setTopographyKbot nx ny nz saltData bathy i j
     ∧ setTopographyKbot nx ny nz saltData bathy i j ≤ (nz : ℤ))
    ∧ (interiorXY nx ny i j →
        (channelA (i - 2) (j - 2) ∨ channelB (i - 2) (j - 2) ∨ channelC (i - 2) (j - 2)) →
        setTopographyKbot nx ny nz saltData bathy i j = 0) := by
  have h0 : (0 : ℤ) ≤ (nz : ℤ) := Int.natCast_nonneg nz
  have hbase : ∀ x y, 0 ≤ (((List.range nz).reverse).foldl
        (fun kb k => applySaltLevel nx ny saltData k kb) (fun _ _ => (0 : ℤ))) x y
      ∧ (((List.range nz).reverse).foldl
        (fun kb k => applySaltLevel nx ny saltData k kb) (fun _ _ => (0 : ℤ))) x y ≤ (nz : ℤ) := by
    apply foldl_salt_bounds
    · intro k hk
      rw [List.mem_reverse, List.mem_range] at hk
      omega
    · intro x y
      exact ⟨le_refl 0, h0⟩
  have hbathy : ∀ x y, 0 ≤ applyBathymetry nx ny bathy
        (((List.range nz).reverse).foldl
          (fun kb k => applySaltLevel nx ny saltData k kb) (fun _ _ => (0 : ℤ))) x y
      ∧ applyBathymetry nx ny bathy
        (((List.range nz).reverse).foldl
          (fun kb k => applySaltLevel nx ny saltData k kb) (fun _ _ => (0 : ℤ))) x y ≤ (nz : ℤ) := by
    intro x y
    unfold applyBathymetry
    split
    · exact ⟨le_refl 0, h0⟩
    · exact hbase x y
  have hclamp : ∀ x y, 0 ≤ clampKbot nz (applyBathymetry nx ny bathy
        (((List.range nz).reverse).foldl
          (fun kb k => applySaltLevel nx ny saltData k kb) (fun _ _ => (0 : ℤ)))) x y
      ∧ clampKbot nz (applyBathymetry nx ny bathy
        (((List.range nz).reverse).foldl
          (fun kb k => applySaltLevel nx ny saltData k kb) (fun _ _ => (0 : ℤ)))) x y ≤ (nz : ℤ) := by
    intro x y
    unfold clampKbot
    exact ⟨le_min (hbathy x y).1 h0, min_le_right _ _⟩
  constructor
  · unfold setTopographyKbot
    exact applyChannel_bounds nx ny channelC _ _
      (applyChannel_bounds nx ny channelB _ _
        (applyChannel_bounds nx ny channelA _ _ hclamp h0) h0) h0 i j
  · intro hint hch
    unfold setTopographyKbot
    rcases hch with hA | hB | hC
    · apply applyChannel_zero
      apply applyChannel_zero
      unfold applyChannel
      exact if_pos ⟨hint, hA⟩
    · apply applyChannel_zero
      unfold applyChannel
      exact if_pos ⟨hint, hB⟩
    · unfold applyChannel
      exact if_pos ⟨hint, hC⟩

/-- Witness for C10 at a closed-channel cell (data cell (207, 0), i.e.
array cell (209, 2)) of a 360×160 grid with one vertical level and
uniform nonzero data. -/
theorem claim_C10_kbot_range_witness :
    setTopographyKbot 360 160 1 (fun _ _ _ => 1) (fun _ _ => 1) 209 2 = 0
    ∧ 0 ≤ setTopographyKbot 360 160 1 (fun _ _ _ => 1) (fun _ _ => 1) 209 2
    ∧ setTopographyKbot 360 160 1 (fun _ _ _ => 1) (fun _ _ => 1) 209 2 ≤ (1 : ℤ) := by
  have h := claim_C10_kbot_range 360 160 1 (fun _ _ _ => 1) (fun _ _ => 1) 209 2
  exact ⟨h.2 (by decide) (Or.inl (by decide)), h.1.1, h.1.2⟩

end Veros
